import Mathlib

/-!
# Verification of the Exhibition VM Controller (host-controller)

A shallow embedding, in Lean 4, of the Python modules
`vm_controller/heartbeat_monitor.py`, `vm_controller/vm_manager.py` and
`vm_controller/api.py` of the `exhibition-vm-controller` repository,
together with proofs about the embedded operations.

Modelling conventions:
* wall-clock timestamps and durations (Python floats produced by
  `time.time()`) are integers (`ℤ`, think clock ticks): every property
  proved here depends only on ordering and subtraction of times;
* external effects (`subprocess.run` on `virsh`, the QEMU guest agent
  probe, the user callbacks) are passed in as explicit parameters
  describing the outcome of each effect, and the commands a function
  issues are returned as part of its result;
* Python exceptions are `Except` values; an uncaught exception is an
  `.error` result.
-/

deriving instance DecidableEq for Except

/-- Outcome of a `subprocess.run(["virsh", ...], check=True)` call that
raised `CalledProcessError`: the captured standard error text. -/
structure CalledProcessError where
  stderr : String
  deriving Repr, DecidableEq

/-- `pat` starts the character list `s`. -/
def charsStartWith : List Char → List Char → Bool
  | [], _ => true
  | _ :: _, [] => false
  | p :: ps, c :: cs => p == c && charsStartWith ps cs

/-- `pat` occurs as a contiguous run somewhere in `s`. -/
def charsOccur (pat : List Char) : List Char → Bool
  | [] => pat.isEmpty
  | c :: cs => charsStartWith pat (c :: cs) || charsOccur pat cs

/-- `pat` occurs as a substring of `s` (the Python `pat in s` test on
strings). -/
def strContains (s pat : String) : Bool :=
  charsOccur pat.data s.data

namespace HeartbeatMonitor

/-- The part of `VMManager` that `HeartbeatMonitor` reads: the
`auto_revert_enabled` attribute.  `HeartbeatMonitor.vm_manager` is
`Optional`, hence an `Option VMLink` below. -/
structure VMLink where
  auto_revert_enabled : Bool
  deriving Repr, DecidableEq

/-- The mutable state of a `HeartbeatMonitor` instance: the fields set
in `__init__` (minus the asyncio task handle, which carries no data the
claims mention).  `timeout` and `check_interval` are set once in
`__init__` and never written afterwards. -/
structure State where
  timeout : ℤ
  check_interval : ℤ
  last_heartbeat : Option ℤ
  was_monitoring : Bool
  actual_heartbeat_received : Bool
  manual_stop : Bool
  deriving Repr, DecidableEq

/-- `HeartbeatMonitor.__init__`: `last_heartbeat = None`,
`_was_monitoring = False`, `_actual_heartbeat_received = False`,
`_manual_stop = False`. -/
def init (timeout check_interval : ℤ) : State :=
  { timeout := timeout
    check_interval := check_interval
    last_heartbeat := none
    was_monitoring := false
    actual_heartbeat_received := false
    manual_stop := false }

/-- `HeartbeatMonitor.receive_heartbeat`: records `time.time()` into
`last_heartbeat` and sets `_actual_heartbeat_received`. -/
def receive_heartbeat (m : State) (now : ℤ) : State :=
  { m with last_heartbeat := some now, actual_heartbeat_received := true }

/-- `HeartbeatMonitor.is_timed_out`, evaluated at wall-clock time `now`.
The method only reads attributes (it assigns none), so the embedding is
a pure function of the state; `vm` is the `vm_manager` attribute. -/
def is_timed_out (vm : Option VMLink) (m : State) (now : ℤ) : Bool :=
  match vm with
  | none => false
  | some v =>
    if !v.auto_revert_enabled then false
    else
      match m.last_heartbeat with
      | none => false
      | some lh => decide (now - lh > m.timeout)

/-- `HeartbeatMonitor.set_manual_stop`. -/
def set_manual_stop (m : State) : State :=
  { m with manual_stop := true }

/-- `HeartbeatMonitor.clear_manual_stop`. -/
def clear_manual_stop (m : State) : State :=
  { m with manual_stop := false }

/-- `HeartbeatMonitor.reset`: `last_heartbeat = None`,
`_actual_heartbeat_received = False`, `_manual_stop = False`. -/
def reset (m : State) : State :=
  { m with last_heartbeat := none
           actual_heartbeat_received := false
           manual_stop := false }

/-- Why `_monitoring_loop` invoked `on_timeout_callback` on a given
iteration. -/
inductive CallbackReason where
  | vmNotRunning
  | heartbeatTimeout
  deriving Repr, DecidableEq

/-- The Python truthiness test
`self.vm_manager and self.vm_manager.auto_revert_enabled` that both
`is_timed_out` and the monitoring loop perform. -/
def vm_auto_revert : Option VMLink → Bool
  | none => false
  | some v => v.auto_revert_enabled

/-- The timestamp-stamping prelude of the loop body: the two
conditional assignments to `last_heartbeat` (and `_was_monitoring`)
that `_monitoring_loop` performs, when monitoring is active, before any
check runs ("If we just started monitoring, reset the timer";
"Initialize heartbeat timer if not set"). -/
def stamp (m : State) (now : ℤ) : State :=
  let m1 := if !m.was_monitoring then
      { m with last_heartbeat := some now, was_monitoring := true }
    else m
  if m1.last_heartbeat.isNone then { m1 with last_heartbeat := some now }
  else m1

/-- One iteration of the `while True` body of
`HeartbeatMonitor._monitoring_loop`, evaluated at wall-clock time `now`.
`r` is the outcome of `self.vm_manager.is_running()` (`.error ()` when
that call raised; the loop catches the exception and falls through to
the heartbeat check).  Returns the state after the iteration and the
reason the callback was invoked, if it was; each iteration invokes the
callback at most once, since the VM-not-running branch `continue`s past
the heartbeat check. -/
def monitoring_tick (vm : Option VMLink) (r : Except Unit Bool)
    (m : State) (now : ℤ) : State × Option CallbackReason :=
  if !vm_auto_revert vm then
    -- "Mark that we're not monitoring"
    ({ m with was_monitoring := false }, none)
  else
    -- the two guarded timestamp assignments
    let m2 := stamp m now
    -- "Check if VM is running (unless manually stopped)"
    if !m2.manual_stop && (match r with | .ok false => true | _ => false) then
      (m2, some .vmNotRunning)
    -- "Check for heartbeat timeout (unless manually stopped)"
    else if !m2.manual_stop && is_timed_out vm m2 now then
      (m2, some .heartbeatTimeout)
    else
      (m2, none)

/-- The combined state the monitor's behaviour depends on: the
`auto_revert_enabled` flag of the attached `VMManager` (when one is
attached) together with the monitor's own fields. -/
abbrev Sys := Option VMLink × State

/-- One observable event of the running system: a guest heartbeat
arriving over the API, one iteration of the monitoring loop, the manual
stop flag being set or cleared, a monitor reset, or the operator
toggling auto-revert on the `VMManager`. -/
inductive SysStep : Sys → Sys → Prop where
  | heartbeat (vm : Option VMLink) (m : State) (now : ℤ) :
      SysStep (vm, m) (vm, receive_heartbeat m now)
  | tick (vm : Option VMLink) (m : State) (r : Except Unit Bool) (now : ℤ) :
      SysStep (vm, m) (vm, (monitoring_tick vm r m now).1)
  | manualStop (vm : Option VMLink) (m : State) :
      SysStep (vm, m) (vm, set_manual_stop m)
  | manualClear (vm : Option VMLink) (m : State) :
      SysStep (vm, m) (vm, clear_manual_stop m)
  | monitorReset (vm : Option VMLink) (m : State) :
      SysStep (vm, m) (vm, reset m)
  | enableAutoRevert (v : VMLink) (m : State) :
      SysStep (some v, m) (some ⟨true⟩, m)
  | disableAutoRevert (v : VMLink) (m : State) :
      SysStep (some v, m) (some ⟨false⟩, m)

/-- Reachability of a system state from another by any run of events. -/
def Reachable : Sys → Sys → Prop :=
  Relation.ReflTransGen SysStep

/-- The state the monitoring loop produces from a fresh monitor
(timeout 15, check interval 1, auto-revert enabled) on its first
iteration at time 0, with the VM reported running: the loop stamps
`last_heartbeat := 0` although no guest heartbeat has ever arrived. -/
def loop_stamped_state : State :=
  (monitoring_tick (some ⟨true⟩) (.ok true) (init 15 1) 0).1

end HeartbeatMonitor

namespace VMManager

/-- The configuration a `VMManager` instance is constructed with, as far
as the claims need it. -/
structure Config where
  vm_name : String
  snapshot_name : String
  deriving Repr, DecidableEq

/-- Modelled virsh snapshot backend.  Snapshot names in libvirt are
unique per domain, so the backend state is the list of existing
snapshot names.  `virsh snapshot-delete DOM NAME` removes the named
snapshot, or fails with a standard-error message containing the marker
`No snapshot with name` when it does not exist (the marker
`create_snapshot` greps for; the real message also repeats the
name, which the code never inspects). -/
def virsh_snapshot_delete (store : List String) (name : String) :
    Except CalledProcessError (List String) :=
  if name ∈ store then .ok (store.filter (fun s => s != name))
  else .error ⟨"error: Domain snapshot not found: No snapshot with name"⟩

/-- Modelled virsh `snapshot-create-as DOM NAME`: creates the named
snapshot, failing if one of that name already exists. -/
def virsh_snapshot_create_as (store : List String) (name : String) :
    Except CalledProcessError (List String) :=
  if name ∈ store then
    .error ⟨"error: operation failed: domain snapshot already exists"⟩
  else .ok (name :: store)

/-- `VMManager.create_snapshot(snapshot_name)`: resolves the name
(`snapshot_name or self.snapshot_name`), tries
`virsh snapshot-delete`, catching `CalledProcessError` and never
re-raising it (it only logs a warning when the standard error lacks the
`No snapshot with name` marker), then runs `virsh snapshot-create-as`.
Returns the creation outcome together with whether the tolerated delete
failure was logged as a warning. -/
def create_snapshot (cfg : Config) (snapshot_name : Option String)
    (store : List String) : Except CalledProcessError (List String) × Bool :=
  let name := snapshot_name.getD cfg.snapshot_name
  match virsh_snapshot_delete store name with
  | .ok store1 => (virsh_snapshot_create_as store1 name, false)
  | .error e =>
    (virsh_snapshot_create_as store name,
     !strContains e.stderr "No snapshot with name")

/-- `VMManager.stop_vm()`: runs `virsh destroy` (a hard stop) once;
`destroy_result` is that command's outcome.  A `CalledProcessError`
whose standard error contains `Domain not running` or
`domain is not running` is swallowed as success; any other error is
re-raised unchanged.  The second component counts the destroy commands
issued. -/
def stop_vm (destroy_result : Except CalledProcessError Unit) :
    Except CalledProcessError Unit × ℕ :=
  match destroy_result with
  | .ok _ => (.ok (), 1)
  | .error e =>
    if strContains e.stderr "Domain not running" ||
        strContains e.stderr "domain is not running" then
      (.ok (), 1)
    else
      (.error e, 1)

/-- The exceptions `VMManager.start_vm()` can raise: the `RuntimeError`
for a missing snapshot is a type distinct from the
`subprocess.CalledProcessError` of a failed backend command. -/
inductive StartVmError where
  | runtimeError (msg : String)
  | calledProcessError (e : CalledProcessError)
  deriving Repr, DecidableEq

/-- What `VMManager.start_vm()` did: whether the reset callback was
invoked and whether the `virsh snapshot-revert` command was issued. -/
structure StartVmTrace where
  callback_invoked : Bool
  revert_issued : Bool
  deriving Repr, DecidableEq

/-- `VMManager.start_vm()`.  `snapshot_exists` is the outcome of the
`self.snapshot_exists()` check; `callback` is the `on_reset_callback`
attribute (`none` when unset, `some raises` when set, with `raises`
telling whether the call raises — the method catches and logs any such
exception); `revert_result` is the outcome of
`virsh snapshot-revert`. -/
def start_vm (cfg : Config) (snapshot_exists : Bool)
    (callback : Option Bool)
    (revert_result : Except CalledProcessError Unit) :
    Except StartVmError Unit × StartVmTrace :=
  if !snapshot_exists then
    (.error (.runtimeError
      ("Cannot start VM: snapshot " ++ cfg.snapshot_name ++ " does not exist")),
     ⟨false, false⟩)
  else
    match revert_result with
    | .ok _ => (.ok (), ⟨callback.isSome, true⟩)
    | .error e => (.error (.calledProcessError e), ⟨callback.isSome, true⟩)

/-- `VMManager.check_vm_responsiveness()`: sends a guest-ping through
the QEMU guest agent; `outcome` is the probe's result (`.error ()` for
either `CalledProcessError` or `TimeoutExpired`, both of which the
method catches).  It never raises: it returns a plain `Bool`. -/
def check_vm_responsiveness (outcome : Except Unit String) : Bool :=
  match outcome with
  | .ok _ => true
  | .error _ => false

/-- The outcome of `wait_for_vm_ready`: the returned boolean, how many
responsiveness probes ran, and how many `time.sleep(check_interval)`
calls were made. -/
structure WaitResult where
  result : Bool
  probes : ℕ
  sleeps : ℕ
  deriving Repr, DecidableEq

/-- The `for attempt in range(1, max_attempts + 1)` loop of
`wait_for_vm_ready`, with `attempt` the current 1-based attempt number
and the second argument the number of attempts left (`probe n` is the
guest-agent outcome on attempt `n`).  A successful probe returns `True`
at once; otherwise the loop sleeps only when `attempt < max_attempts`,
and returns `False` after the last attempt. -/
def wait_go (probe : ℕ → Except Unit String) : ℕ → ℕ → WaitResult
  | _, 0 => ⟨false, 0, 0⟩
  | attempt, r + 1 =>
    if check_vm_responsiveness (probe attempt) then ⟨true, 1, 0⟩
    else if r = 0 then ⟨false, 1, 0⟩
    else
      let rest := wait_go probe (attempt + 1) r
      ⟨rest.result, rest.probes + 1, rest.sleeps + 1⟩

/-- `VMManager.wait_for_vm_ready(check_interval, max_attempts)`; each
counted sleep lasts `check_interval` seconds.  Like the source, it
raises nothing: it is a total function into `WaitResult`. -/
def wait_for_vm_ready (probe : ℕ → Except Unit String)
    (check_interval : ℤ) (max_attempts : ℕ) : WaitResult :=
  wait_go probe 1 max_attempts

end VMManager

namespace Api

/-- The method names the class `HeartbeatMonitor` of
`vm_controller/heartbeat_monitor.py` defines; looking up any other
attribute on an instance raises `AttributeError` (the class has no
`enable` or `disable` method and `__init__` creates no such
attribute). -/
def heartbeatMonitor_method_names : List String :=
  ["__init__", "receive_heartbeat", "is_timed_out",
   "get_time_since_heartbeat", "get_status", "start_monitoring",
   "stop_monitoring", "_monitoring_loop", "set_manual_stop",
   "clear_manual_stop", "reset"]

/-- A Python exception as the endpoints see it. -/
inductive PyError where
  | attributeError (cls attr : String)
  | other (msg : String)
  deriving Repr, DecidableEq

/-- Calling `heartbeat_monitor.<attr>()`: succeeds when the class
defines the method, raises `AttributeError` otherwise. -/
def heartbeatMonitor_call (attr : String) : Except PyError Unit :=
  if attr ∈ heartbeatMonitor_method_names then .ok ()
  else .error (.attributeError "HeartbeatMonitor" attr)

/-- The observable outcome of the `/api/v1/vm/stop` endpoint: the HTTP
status of the response (200, or 500 from the `except Exception`
handler) and whether `vm_manager.stop_vm` was ever invoked. -/
structure StopEndpointOutcome where
  http_status : ℕ
  backend_stop_issued : Bool
  deriving Repr, DecidableEq

/-- The `try` block of the `stop_vm` endpoint of `api.py`: first
`heartbeat_monitor.disable()` when a monitor is present, then
`vm_manager.stop_vm()` (whose outcome is `stop_result`); any exception
becomes an HTTP 500 response. -/
def stop_vm_endpoint (monitor_present : Bool)
    (stop_result : Except CalledProcessError Unit) : StopEndpointOutcome :=
  match (if monitor_present then heartbeatMonitor_call "disable" else .ok ()) with
  | .error _ => ⟨500, false⟩
  | .ok _ =>
    match stop_result with
    | .ok _ => ⟨200, true⟩
    | .error _ => ⟨500, true⟩

/-- The observable outcome of the `/api/v1/vm/restart` endpoint: HTTP
status, whether `vm_manager.restart_vm` was invoked, and whether
heartbeat monitoring was re-enabled afterwards. -/
structure RestartEndpointOutcome where
  http_status : ℕ
  restart_attempted : Bool
  monitoring_reenabled : Bool
  deriving Repr, DecidableEq

/-- The `try` block of the `restart_vm` endpoint of `api.py`:
`heartbeat_monitor.disable()` when a monitor is present, then
`vm_manager.restart_vm(...)`, then on a truthy result
`heartbeat_monitor.enable()`; any exception becomes an HTTP 500
response. -/
def restart_vm_endpoint (monitor_present : Bool)
    (restart_result : Except CalledProcessError Bool) : RestartEndpointOutcome :=
  match (if monitor_present then heartbeatMonitor_call "disable" else .ok ()) with
  | .error _ => ⟨500, false, false⟩
  | .ok _ =>
    match restart_result with
    | .error _ => ⟨500, true, false⟩
    | .ok success =>
      if success && monitor_present then
        match heartbeatMonitor_call "enable" with
        | .ok _ => ⟨200, true, true⟩
        | .error _ => ⟨500, true, false⟩
      else ⟨200, true, false⟩

/-- The `on_heartbeat_timeout` recovery callback of `api.py`, returning
whether it re-enabled heartbeat monitoring through its
`heartbeat_monitor.enable()` call.  The whole body sits in a
`try ... except Exception` that catches and logs every exception,
including the `AttributeError` the `enable()` call raises. -/
def on_heartbeat_timeout (auto_revert : Bool) (monitor_present : Bool)
    (restart_result : Except CalledProcessError Bool) : Bool :=
  if auto_revert then
    match restart_result with
    | .error _ => false
    | .ok _ =>
      if monitor_present then
        match heartbeatMonitor_call "enable" with
        | .ok _ => true
        | .error _ => false
      else false
  else false

end Api

/-- C1 (claim): `is_timed_out()` is `false` whenever auto-revert is
disabled (including the case of no attached `vm_manager`) or no
last-heartbeat timestamp exists, and otherwise is `true` iff
`now - last_heartbeat > timeout`, strictly.  The source method assigns
no attribute, so it mutates no monitor state; the embedding is
accordingly a pure function of the state. -/
theorem is_timed_out_spec (vm : Option HeartbeatMonitor.VMLink)
    (m : HeartbeatMonitor.State) (now : ℤ) :
    HeartbeatMonitor.is_timed_out vm m now = true ↔
      (∃ v, vm = some v ∧ v.auto_revert_enabled = true) ∧
      (∃ lh, m.last_heartbeat = some lh ∧ now - lh > m.timeout) := by
  cases vm with
  | none => simp [HeartbeatMonitor.is_timed_out]
  | some v =>
    cases hv : v.auto_revert_enabled with
    | false =>
      have hout : HeartbeatMonitor.is_timed_out (some v) m now = false := by
        simp [HeartbeatMonitor.is_timed_out, hv]
      rw [hout]
      constructor
      · intro h
        exact absurd h (by simp)
      · rintro ⟨⟨v', hv', hen⟩, -⟩
        cases Option.some.inj hv'
        simp [hv] at hen
    | true =>
      cases hlh : m.last_heartbeat with
      | none => simp [HeartbeatMonitor.is_timed_out, hv, hlh]
      | some lh =>
        simp only [HeartbeatMonitor.is_timed_out, hv, hlh, Bool.not_true]
        constructor
        · intro h
          refine ⟨⟨v, rfl, hv⟩, lh, rfl, ?_⟩
          simpa using h
        · rintro ⟨-, lh', hlh', hgt⟩
          cases hlh'
          simpa using hgt

/-- Helper: with monitoring active, one loop iteration is the stamping
prelude followed by the two guarded checks, the timeout check being run
on the stamped state. -/
theorem monitoring_tick_char (v : HeartbeatMonitor.VMLink)
    (r : Except Unit Bool) (m : HeartbeatMonitor.State) (now : ℤ)
    (hen : v.auto_revert_enabled = true) :
    HeartbeatMonitor.monitoring_tick (some v) r m now =
      (HeartbeatMonitor.stamp m now,
       if m.manual_stop = false ∧ r = Except.ok false then
         some HeartbeatMonitor.CallbackReason.vmNotRunning
       else if m.manual_stop = false ∧
           HeartbeatMonitor.is_timed_out (some v)
             (HeartbeatMonitor.stamp m now) now = true then
         some HeartbeatMonitor.CallbackReason.heartbeatTimeout
       else none) := by
  have hms : (HeartbeatMonitor.stamp m now).manual_stop = m.manual_stop := by
    unfold HeartbeatMonitor.stamp
    cases m.was_monitoring <;> dsimp <;> split <;> rfl
  unfold HeartbeatMonitor.monitoring_tick
  rw [show HeartbeatMonitor.vm_auto_revert (some v) = true from hen]
  dsimp only
  cases hm : m.manual_stop with
  | false =>
    rw [hm] at hms
    cases r with
    | error u =>
      cases u
      simp only [hms]
      simp
      split <;> rfl
    | ok b =>
      cases b with
      | false => simp [hms]
      | true =>
        simp only [hms]
        simp
        split <;> rfl
  | true =>
    rw [hm] at hms
    simp [hms]

/-- Helper: an iteration with monitoring inactive (no attached manager,
or auto-revert disabled) only clears `_was_monitoring` and never
invokes the callback. -/
theorem monitoring_tick_inactive (vm : Option HeartbeatMonitor.VMLink)
    (r : Except Unit Bool) (m : HeartbeatMonitor.State) (now : ℤ)
    (h : ∀ v, vm = some v → v.auto_revert_enabled = false) :
    HeartbeatMonitor.monitoring_tick vm r m now =
      ({ m with was_monitoring := false }, none) := by
  cases vm with
  | none => rfl
  | some v =>
    have hv := h v rfl
    unfold HeartbeatMonitor.monitoring_tick
    rw [show HeartbeatMonitor.vm_auto_revert (some v) = false from hv]
    rfl

/-- C2 (counterexample): the claim fails on the code.  From the fresh
monitor with auto-revert enabled, a single iteration of the monitoring
loop (VM reported running, wall clock 0) reaches a state in which no
guest heartbeat has ever been received
(`_actual_heartbeat_received = false`) and yet, once more than
`timeout` seconds have elapsed since that iteration, `is_timed_out()`
returns `true`: the loop stamped `last_heartbeat` itself, and
`is_timed_out` keys on the timestamp, not on the received flag. -/
theorem loop_stamp_defeats_grace_counterexample :
    HeartbeatMonitor.Reachable
        (some ⟨true⟩, HeartbeatMonitor.init 15 1)
        (some ⟨true⟩, HeartbeatMonitor.loop_stamped_state) ∧
    HeartbeatMonitor.loop_stamped_state.actual_heartbeat_received = false ∧
    HeartbeatMonitor.is_timed_out (some ⟨true⟩)
        HeartbeatMonitor.loop_stamped_state 16 = true :=
  ⟨Relation.ReflTransGen.single
      (HeartbeatMonitor.SysStep.tick (some ⟨true⟩)
        (HeartbeatMonitor.init 15 1) (Except.ok true) 0),
   by decide, by decide⟩

/-- C2 (amended): with auto-revert enabled and no heartbeat ever
received, `is_timed_out()` is `false` as long as no last-heartbeat
timestamp exists (in particular in the initial state and right after
`reset()`); but the monitoring loop may stamp the timestamp without any
guest heartbeat, after which `is_timed_out()` can become `true` once
`timeout` elapses past the stamp. -/
theorem is_timed_out_false_of_no_stamp (vm : Option HeartbeatMonitor.VMLink)
    (m : HeartbeatMonitor.State) (now : ℤ)
    (h : m.last_heartbeat = none) :
    HeartbeatMonitor.is_timed_out vm m now = false := by
  cases vm with
  | none => rfl
  | some v =>
    cases hv : v.auto_revert_enabled <;>
      simp [HeartbeatMonitor.is_timed_out, hv, h]

/-- Witness for `is_timed_out_false_of_no_stamp` at a concrete input. -/
theorem is_timed_out_false_of_no_stamp_witness :
    (HeartbeatMonitor.init 15 1).last_heartbeat = none ∧
    HeartbeatMonitor.is_timed_out (some ⟨true⟩)
      (HeartbeatMonitor.init 15 1) 99999 = false :=
  ⟨rfl, is_timed_out_false_of_no_stamp (some ⟨true⟩)
    (HeartbeatMonitor.init 15 1) 99999 rfl⟩

/-- C3: `HeartbeatMonitor` defines no `enable` or `disable` method, so
invoking either raises `AttributeError`; consequently the stop-VM
endpoint (which calls `disable()` first) answers HTTP 500 without ever
issuing the backend stop command, the restart endpoint does the same
without invoking `restart_vm`, and the `on_heartbeat_timeout` recovery
callback never re-enables monitoring through its `enable()` call
(whatever the restart outcome), its `AttributeError` being swallowed by
the surrounding `except Exception`. -/
theorem missing_enable_disable_spec :
    Api.heartbeatMonitor_call "disable" =
      .error (.attributeError "HeartbeatMonitor" "disable") ∧
    Api.heartbeatMonitor_call "enable" =
      .error (.attributeError "HeartbeatMonitor" "enable") ∧
    (∀ r, Api.stop_vm_endpoint true r = ⟨500, false⟩) ∧
    (∀ r, Api.restart_vm_endpoint true r = ⟨500, false, false⟩) ∧
    (∀ ar r, Api.on_heartbeat_timeout ar true r = false) := by
  have hd : Api.heartbeatMonitor_call "disable" =
      .error (.attributeError "HeartbeatMonitor" "disable") := by decide
  have he : Api.heartbeatMonitor_call "enable" =
      .error (.attributeError "HeartbeatMonitor" "enable") := by decide
  refine ⟨hd, he, ?_, ?_, ?_⟩
  · intro r
    simp [Api.stop_vm_endpoint, hd]
  · intro r
    simp [Api.restart_vm_endpoint, hd]
  · intro ar r
    cases ar with
    | false => rfl
    | true =>
      cases r with
      | error e => rfl
      | ok b => simp [Api.on_heartbeat_timeout, he]

/-- C4: on an iteration where monitoring transitions from inactive to
active (`_was_monitoring` is `false`, auto-revert now enabled), the
loop stamps `last_heartbeat := now` before any check, so the heartbeat
timeout check of that very iteration sees an elapsed time of zero and
cannot fire (for any non-negative timeout, however long monitoring was
off). -/
theorem tick_rearms_on_transition (v : HeartbeatMonitor.VMLink)
    (r : Except Unit Bool) (m : HeartbeatMonitor.State) (now : ℤ)
    (hen : v.auto_revert_enabled = true)
    (hwm : m.was_monitoring = false)
    (hto : 0 ≤ m.timeout) :
    (HeartbeatMonitor.monitoring_tick (some v) r m now).1.last_heartbeat
        = some now ∧
    HeartbeatMonitor.is_timed_out (some v)
        (HeartbeatMonitor.monitoring_tick (some v) r m now).1 now = false ∧
    (HeartbeatMonitor.monitoring_tick (some v) r m now).2 ≠
      some HeartbeatMonitor.CallbackReason.heartbeatTimeout := by
  have hstamp : HeartbeatMonitor.stamp m now =
      { m with last_heartbeat := some now, was_monitoring := true } := by
    unfold HeartbeatMonitor.stamp
    rw [hwm]
    rfl
  have hit : HeartbeatMonitor.is_timed_out (some v)
      (HeartbeatMonitor.stamp m now) now = false := by
    rw [hstamp]
    simp [HeartbeatMonitor.is_timed_out, hen]
    omega
  rw [monitoring_tick_char v r m now hen]
  refine ⟨by rw [hstamp], by simpa using hit, ?_⟩
  · simp only [hit]
    by_cases h1 : m.manual_stop = false ∧ r = Except.ok false
    · simp [h1]
    · simp [h1]

/-- Witness for `tick_rearms_on_transition` at a concrete input: fresh
monitor (timeout 15), first active iteration at time 100. -/
theorem tick_rearms_on_transition_witness :
    (HeartbeatMonitor.monitoring_tick (some ⟨true⟩) (Except.ok true)
        (HeartbeatMonitor.init 15 1) 100).1.last_heartbeat = some 100 ∧
    HeartbeatMonitor.is_timed_out (some ⟨true⟩)
        (HeartbeatMonitor.monitoring_tick (some ⟨true⟩) (Except.ok true)
          (HeartbeatMonitor.init 15 1) 100).1 100 = false ∧
    (HeartbeatMonitor.monitoring_tick (some ⟨true⟩) (Except.ok true)
        (HeartbeatMonitor.init 15 1) 100).2 ≠
      some HeartbeatMonitor.CallbackReason.heartbeatTimeout :=
  tick_rearms_on_transition ⟨true⟩ (Except.ok true)
    (HeartbeatMonitor.init 15 1) 100 rfl rfl (by decide)

/-- C5: while the manual-stop flag is set, a monitoring-loop iteration
never invokes the recovery callback — neither through the VM-not-running
branch nor through the heartbeat-timeout branch, even when
`is_timed_out()` is `true`; `clear_manual_stop()` clears the flag, and
an iteration on the cleared state fires the callback again under the
usual conditions (here: monitoring active, timer already armed, timeout
elapsed, VM not reported down). -/
theorem manual_stop_suppresses_callback (vm : Option HeartbeatMonitor.VMLink)
    (r : Except Unit Bool) (m : HeartbeatMonitor.State) (now lh : ℤ)
    (hms : m.manual_stop = true) :
    (HeartbeatMonitor.monitoring_tick vm r m now).2 = none ∧
    (HeartbeatMonitor.clear_manual_stop m).manual_stop = false ∧
    (m.was_monitoring = true → m.last_heartbeat = some lh →
      m.timeout < now - lh → r ≠ Except.ok false →
      (HeartbeatMonitor.monitoring_tick (some ⟨true⟩) r
          (HeartbeatMonitor.clear_manual_stop m) now).2 =
        some HeartbeatMonitor.CallbackReason.heartbeatTimeout) := by
  refine ⟨?_, rfl, ?_⟩
  · cases vm with
    | none => rfl
    | some v =>
      cases hv : v.auto_revert_enabled with
      | false =>
        rw [monitoring_tick_inactive _ r m now
          (fun v' hv' => by cases hv'; exact hv)]
      | true =>
        rw [monitoring_tick_char v r m now hv]
        simp [hms]
  · intro hwm hlh hto hr
    have hstamp : HeartbeatMonitor.stamp
        (HeartbeatMonitor.clear_manual_stop m) now =
        HeartbeatMonitor.clear_manual_stop m := by
      unfold HeartbeatMonitor.stamp HeartbeatMonitor.clear_manual_stop
      simp [hwm, hlh]
    have hit : HeartbeatMonitor.is_timed_out (some ⟨true⟩)
        { m with manual_stop := false } now = true := by
      simp [HeartbeatMonitor.is_timed_out, hlh]
      omega
    rw [monitoring_tick_char ⟨true⟩ r
      (HeartbeatMonitor.clear_manual_stop m) now rfl, hstamp]
    simp [HeartbeatMonitor.clear_manual_stop, hr, hit]

/-- Witness for `manual_stop_suppresses_callback` at a concrete input:
armed monitor, heartbeat at 0, timeout 15, iteration at 100. -/
theorem manual_stop_suppresses_callback_witness :
    (HeartbeatMonitor.monitoring_tick (some ⟨true⟩) (Except.ok true)
        { HeartbeatMonitor.init 15 1 with
            was_monitoring := true, last_heartbeat := some 0,
            manual_stop := true } 100).2 = none ∧
    (HeartbeatMonitor.monitoring_tick (some ⟨true⟩) (Except.ok true)
        (HeartbeatMonitor.clear_manual_stop
          { HeartbeatMonitor.init 15 1 with
              was_monitoring := true, last_heartbeat := some 0,
              manual_stop := true }) 100).2 =
      some HeartbeatMonitor.CallbackReason.heartbeatTimeout :=
  ⟨(manual_stop_suppresses_callback (some ⟨true⟩) (Except.ok true)
      { HeartbeatMonitor.init 15 1 with
          was_monitoring := true, last_heartbeat := some 0,
          manual_stop := true } 100 0 rfl).1,
   (manual_stop_suppresses_callback (some ⟨true⟩) (Except.ok true)
      { HeartbeatMonitor.init 15 1 with
          was_monitoring := true, last_heartbeat := some 0,
          manual_stop := true } 100 0 rfl).2.2 rfl rfl (by decide) (by decide)⟩

/-- C6 (counterexample): `reset()` does not leave the manual-stop flag
unchanged.  On a state with the flag set, `reset()` clears it: the
method body also executes `self._manual_stop = False`. -/
theorem reset_clears_manual_stop_counterexample :
    ¬ ((HeartbeatMonitor.reset
          (HeartbeatMonitor.set_manual_stop
            (HeartbeatMonitor.init 15 1))).manual_stop =
        (HeartbeatMonitor.set_manual_stop
          (HeartbeatMonitor.init 15 1)).manual_stop) := by
  decide

/-- C6 (amended): `reset()` sets the last-heartbeat timestamp to none,
the heartbeat-received flag to false and also the manual-stop flag to
false, leaving the remaining fields of the heartbeat state — `timeout`,
`check_interval` and the was-monitoring flag — unchanged. -/
theorem reset_spec (m : HeartbeatMonitor.State) :
    (HeartbeatMonitor.reset m).last_heartbeat = none ∧
    (HeartbeatMonitor.reset m).actual_heartbeat_received = false ∧
    (HeartbeatMonitor.reset m).manual_stop = false ∧
    (HeartbeatMonitor.reset m).timeout = m.timeout ∧
    (HeartbeatMonitor.reset m).check_interval = m.check_interval ∧
    (HeartbeatMonitor.reset m).was_monitoring = m.was_monitoring :=
  ⟨rfl, rfl, rfl, rfl, rfl, rfl⟩

/-- C7: when the reference snapshot is missing, `start_vm()` raises the
`RuntimeError` precondition failure — a type distinct from the backend
`CalledProcessError` — and issues no revert and invokes no reset
callback; when the snapshot exists, the reset callback is invoked
exactly when one is set (and whether it raises is irrelevant to the
result: `callback` carries that bit and the outcome ignores it), the
revert command is issued, and the overall result follows the revert
outcome. -/
theorem start_vm_spec (cfg : VMManager.Config) (callback : Option Bool)
    (revert_result : Except CalledProcessError Unit) :
    (∀ msg e, VMManager.StartVmError.runtimeError msg ≠
      VMManager.StartVmError.calledProcessError e) ∧
    VMManager.start_vm cfg false callback revert_result =
      (.error (.runtimeError
        ("Cannot start VM: snapshot " ++ cfg.snapshot_name ++
          " does not exist")),
       ⟨false, false⟩) ∧
    (VMManager.start_vm cfg true callback revert_result).2 =
      ⟨callback.isSome, true⟩ ∧
    (revert_result = .ok () →
      (VMManager.start_vm cfg true callback revert_result).1 = .ok ()) ∧
    (∀ e, revert_result = .error e →
      (VMManager.start_vm cfg true callback revert_result).1 =
        .error (.calledProcessError e)) := by
  refine ⟨fun msg e h => VMManager.StartVmError.noConfusion h, rfl, ?_, ?_, ?_⟩
  · cases revert_result <;> rfl
  · intro h
    subst h
    rfl
  · intro e h
    subst h
    rfl

/-- Witness for `start_vm_spec` at concrete inputs. -/
theorem start_vm_spec_witness :
    VMManager.start_vm ⟨"exhibition-vm", "ready"⟩ false none (.ok ()) =
      (.error (.runtimeError
        ("Cannot start VM: snapshot " ++ "ready" ++ " does not exist")),
       ⟨false, false⟩) ∧
    (VMManager.start_vm ⟨"exhibition-vm", "ready"⟩ true (some true)
        (.ok ())).1 = .ok () ∧
    (VMManager.start_vm ⟨"exhibition-vm", "ready"⟩ true (some true)
        (.error ⟨"error: revert failed"⟩)).1 =
      .error (.calledProcessError ⟨"error: revert failed"⟩) :=
  ⟨(start_vm_spec ⟨"exhibition-vm", "ready"⟩ none (.ok ())).2.1,
   (start_vm_spec ⟨"exhibition-vm", "ready"⟩ (some true) (.ok ())).2.2.2.1 rfl,
   (start_vm_spec ⟨"exhibition-vm", "ready"⟩ (some true)
      (.error ⟨"error: revert failed"⟩)).2.2.2.2 _ rfl⟩

/-- Helper: `create_snapshot` when a snapshot of the resolved name
exists: the delete succeeds and the create re-adds the name. -/
theorem create_snapshot_of_mem (cfg : VMManager.Config) (name : String)
    (store : List String) (h : name ∈ store) :
    VMManager.create_snapshot cfg (some name) store =
      (.ok (name :: store.filter (fun s => s != name)), false) := by
  have hnm : name ∉ store.filter (fun s => s != name) := by
    simp [List.mem_filter]
  simp [VMManager.create_snapshot, VMManager.virsh_snapshot_delete,
    VMManager.virsh_snapshot_create_as, h, hnm]

/-- Helper: `create_snapshot` when no snapshot of the resolved name
exists: the delete fails with the `No snapshot with name` marker, the
failure is tolerated without even a warning, and the create succeeds. -/
theorem create_snapshot_of_not_mem (cfg : VMManager.Config) (name : String)
    (store : List String) (h : name ∉ store) :
    VMManager.create_snapshot cfg (some name) store =
      (.ok (name :: store), false) := by
  have hocc : strContains
      "error: Domain snapshot not found: No snapshot with name"
      "No snapshot with name" = true := by decide
  simp [VMManager.create_snapshot, VMManager.virsh_snapshot_delete,
    VMManager.virsh_snapshot_create_as, h, hocc]

/-- C8: `create_snapshot(name)` is an idempotent upsert.  When the name
exists it is deleted first and recreated; when it does not exist the
delete's "does not exist" failure is treated as success (not even
warned about) and the snapshot is created fresh; in particular two
successive calls with the same name both succeed and both leave a
snapshot of that name. -/
theorem create_snapshot_idempotent_upsert (cfg : VMManager.Config)
    (name : String) (store : List String) :
    (name ∈ store →
      VMManager.create_snapshot cfg (some name) store =
        (.ok (name :: store.filter (fun s => s != name)), false)) ∧
    (name ∉ store →
      VMManager.create_snapshot cfg (some name) store =
        (.ok (name :: store), false)) ∧
    (∃ s1 s2,
      (VMManager.create_snapshot cfg (some name) store).1 = .ok s1 ∧
      (VMManager.create_snapshot cfg (some name) s1).1 = .ok s2 ∧
      name ∈ s1 ∧ name ∈ s2) := by
  refine ⟨create_snapshot_of_mem cfg name store,
          create_snapshot_of_not_mem cfg name store, ?_⟩
  by_cases h : name ∈ store
  · have h1 := create_snapshot_of_mem cfg name store h
    have hmem1 : name ∈ name :: store.filter (fun s => s != name) :=
      List.mem_cons_self _ _
    have h2 := create_snapshot_of_mem cfg name _ hmem1
    exact ⟨name :: store.filter (fun s => s != name), _,
      by rw [h1], by rw [h2], hmem1, List.mem_cons_self _ _⟩
  · have h1 := create_snapshot_of_not_mem cfg name store h
    have hmem1 : name ∈ name :: store := List.mem_cons_self _ _
    have h2 := create_snapshot_of_mem cfg name _ hmem1
    exact ⟨name :: store, _, by rw [h1], by rw [h2], hmem1,
      List.mem_cons_self _ _⟩

/-- Witness for `create_snapshot_idempotent_upsert` at concrete inputs:
creating `ready` on an empty store, then again when it exists. -/
theorem create_snapshot_idempotent_upsert_witness :
    VMManager.create_snapshot ⟨"exhibition-vm", "ready"⟩ (some "ready") [] =
      (.ok ["ready"], false) ∧
    VMManager.create_snapshot ⟨"exhibition-vm", "ready"⟩ (some "ready")
      ["ready"] = (.ok ["ready"], false) := by
  constructor
  · exact (create_snapshot_idempotent_upsert
      ⟨"exhibition-vm", "ready"⟩ "ready" []).2.1 (by simp)
  · have h := (create_snapshot_idempotent_upsert
      ⟨"exhibition-vm", "ready"⟩ "ready" ["ready"]).1 (by simp)
    rw [h]
    decide

/-- Helper: when every probe fails, the polling loop runs all remaining
attempts and sleeps only between consecutive ones. -/
theorem wait_go_all_fail (probe : ℕ → Except Unit String)
    (hp : ∀ i, VMManager.check_vm_responsiveness (probe i) = false) :
    ∀ r a, VMManager.wait_go probe a (r + 1) = ⟨false, r + 1, r⟩ := by
  intro r
  induction r with
  | zero =>
    intro a
    unfold VMManager.wait_go
    rw [hp a]
    simp
  | succ n ih =>
    intro a
    unfold VMManager.wait_go
    rw [hp a]
    simp [ih (a + 1)]

/-- Helper: the first successful probe, at offset `d` past the current
attempt and within the remaining budget, stops the loop right there. -/
theorem wait_go_first_ok (probe : ℕ → Except Unit String) :
    ∀ d r a, d < r →
      VMManager.check_vm_responsiveness (probe (a + d)) = true →
      (∀ j, j < d → VMManager.check_vm_responsiveness (probe (a + j)) = false) →
      VMManager.wait_go probe a r = ⟨true, d + 1, d⟩ := by
  intro d
  induction d with
  | zero =>
    intro r a hr hok hprev
    obtain ⟨r', rfl⟩ : ∃ r', r = r' + 1 := ⟨r - 1, by omega⟩
    unfold VMManager.wait_go
    rw [show a + 0 = a from rfl] at hok
    rw [hok]
    simp
  | succ n ih =>
    intro r a hr hok hprev
    obtain ⟨r', rfl⟩ : ∃ r', r = r' + 1 := ⟨r - 1, by omega⟩
    unfold VMManager.wait_go
    have h0 : VMManager.check_vm_responsiveness (probe a) = false := by
      have h00 := hprev 0 (Nat.succ_pos n)
      simpa using h00
    rw [h0]
    have hr0 : ¬ (r' = 0) := by omega
    have hrec := ih r' (a + 1) (by omega)
      (by rw [show a + 1 + n = a + (n + 1) from by omega]; exact hok)
      (fun j hj => by
        rw [show a + 1 + j = a + (j + 1) from by omega]
        exact hprev (j + 1) (by omega))
    simp [hr0, hrec]

/-- C9: `wait_for_vm_ready(check_interval, max_attempts)` with
`max_attempts ≥ 1` performs exactly `max_attempts` probes and
`max_attempts - 1` sleeps (one `time.sleep(check_interval)` between
consecutive attempts, none after the last) and returns `false` when
every probe fails — raising nothing, the function being total — and
returns `true` right after the first successful probe, having probed
`k` times and slept `k - 1` times when the first success is attempt
`k`. -/
theorem wait_for_vm_ready_spec (probe : ℕ → Except Unit String)
    (check_interval : ℤ) (n : ℕ) (h : 1 ≤ n) :
    ((∀ i, VMManager.check_vm_responsiveness (probe i) = false) →
      VMManager.wait_for_vm_ready probe check_interval n =
        ⟨false, n, n - 1⟩) ∧
    (∀ k, 1 ≤ k → k ≤ n →
      VMManager.check_vm_responsiveness (probe k) = true →
      (∀ i, 1 ≤ i → i < k →
        VMManager.check_vm_responsiveness (probe i) = false) →
      VMManager.wait_for_vm_ready probe check_interval n =
        ⟨true, k, k - 1⟩) := by
  constructor
  · intro hp
    obtain ⟨r, rfl⟩ : ∃ r, n = r + 1 := ⟨n - 1, by omega⟩
    unfold VMManager.wait_for_vm_ready
    rw [wait_go_all_fail probe hp r 1]
    simp
  · intro k hk1 hkn hok hprev
    unfold VMManager.wait_for_vm_ready
    have hrec := wait_go_first_ok probe (k - 1) n 1 (by omega)
      (by rw [show 1 + (k - 1) = k from by omega]; exact hok)
      (fun j hj => hprev (1 + j) (by omega) (by omega))
    rw [hrec]
    have hk : k - 1 + 1 = k := by omega
    rw [hk]

/-- Witness for `wait_for_vm_ready_spec` at concrete inputs: three
attempts with a dead guest agent, and three attempts with a responsive
one. -/
theorem wait_for_vm_ready_spec_witness :
    VMManager.wait_for_vm_ready (fun _ => .error ()) 10 3 = ⟨false, 3, 2⟩ ∧
    VMManager.wait_for_vm_ready (fun _ => .ok "guest-ping ok") 10 3 =
      ⟨true, 1, 0⟩ := by
  constructor
  · exact (wait_for_vm_ready_spec (fun _ => .error ()) 10 3
      (by decide)).1 (fun i => rfl)
  · exact (wait_for_vm_ready_spec (fun _ => .ok "guest-ping ok") 10 3
      (by decide)).2 1 (by decide) (by decide) rfl
      (by intro i h1 h2; omega)

/-- C10: `stop_vm()` issues exactly one hard destroy command on every
path; it succeeds when the backend succeeds, swallows a backend error
whose standard error carries an already-not-running marker (returning
success), and re-raises any other backend error unchanged. -/
theorem stop_vm_spec (r : Except CalledProcessError Unit) :
    (VMManager.stop_vm r).2 = 1 ∧
    (r = .ok () → VMManager.stop_vm r = (.ok (), 1)) ∧
    (∀ e, r = .error e →
      (strContains e.stderr "Domain not running" = true ∨
        strContains e.stderr "domain is not running" = true) →
      VMManager.stop_vm r = (.ok (), 1)) ∧
    (∀ e, r = .error e →
      strContains e.stderr "Domain not running" = false →
      strContains e.stderr "domain is not running" = false →
      VMManager.stop_vm r = (.error e, 1)) := by
  refine ⟨?_, ?_, ?_, ?_⟩
  · cases r with
    | ok u => rfl
    | error e =>
      simp only [VMManager.stop_vm]
      split <;> rfl
  · intro h
    subst h
    rfl
  · intro e h hmark
    subst h
    unfold VMManager.stop_vm
    rcases hmark with hm | hm <;> simp [hm]
  · intro e h h1 h2
    subst h
    unfold VMManager.stop_vm
    simp [h1, h2]

/-- Witness for `stop_vm_spec` at concrete inputs: a benign
already-stopped error versus a genuine backend failure. -/
theorem stop_vm_spec_witness :
    VMManager.stop_vm
        (.error ⟨"error: Requested operation is not valid: domain is not running"⟩) =
      (.ok (), 1) ∧
    VMManager.stop_vm (.error ⟨"error: failed to connect to the hypervisor"⟩) =
      (.error ⟨"error: failed to connect to the hypervisor"⟩, 1) :=
  ⟨(stop_vm_spec _).2.2.1 _ rfl (Or.inr (by decide)),
   (stop_vm_spec _).2.2.2 _ rfl (by decide) (by decide)⟩
